import Mathlib

/-!
Verification of the streaming protocol translation engine of
`src/stream-transformer.ts`: the OpenAI-compatible transformer
(`createOpenAIStreamTransformer`) and the Gemini native passthrough
transformer (`createGeminiNativeStreamTransformer`), shallowly embedded
as pure functions over a model of JavaScript values.
-/

namespace StreamTransformer

/-- A JavaScript value as it may arrive in an untyped `chunk.data` payload.
`undefined` models the JS value `undefined`; `num` models JS numbers restricted
to the integers that occur in these payloads (token counts, JSON integers). -/
inductive JVal where
  | null
  | undefined
  | bool (b : Bool)
  | num (n : Int)
  | str (s : String)
  | arr (elems : List JVal)
  | obj (fields : List (String × JVal))

/-- `typeof v === "object" && v !== null`: true for plain objects and arrays
(JS arrays have typeof "object"), false for null, undefined and primitives. -/
def isJsObject : JVal → Bool
  | .obj _ => true
  | .arr _ => true
  | _ => false

/-- The JS `in` operator, `k in v`, for the values `isJsObject` accepts:
key membership for objects; for arrays, `length` and canonical numeric
indices below the length. Other values never reach it in the source. -/
def jsHasProp : JVal → String → Bool
  | .obj fields, k => fields.any (fun f => f.1 = k)
  | .arr elems, k =>
      k = "length" ||
        (match k.toNat? with
         | some i => decide (i < elems.length) && toString i = k
         | none => false)
  | _, _ => false

/-- JS property read `v[k]`: the bound value, or `undefined` when absent. -/
def jsGetProp : JVal → String → JVal
  | .obj fields, k =>
      match fields.find? (fun f => f.1 = k) with
      | some f => f.2
      | none => .undefined
  | .arr elems, k =>
      (match k.toNat? with
       | some i => if h : i < elems.length then elems.get ⟨i, h⟩ else .undefined
       | none => if k = "length" then .num elems.length else .undefined)
  | _, _ => .undefined

/-- JS truthiness of a value. (JS `NaN` is falsy but has no integer model;
it does not occur in these payloads.) -/
def jsTruthy : JVal → Bool
  | .null => false
  | .undefined => false
  | .bool b => b
  | .num n => n ≠ 0
  | .str s => s ≠ ""
  | .arr _ => true
  | .obj _ => true

/-- JS truthiness of a `string | null` (or `| undefined`) variable:
null/undefined and the empty string are falsy. -/
def jsTruthyOptStr : Option String → Bool
  | none => false
  | some s => s ≠ ""

/-- `typeof v === "string"` together with the string read. -/
def JVal.asString? : JVal → Option String
  | .str s => some s
  | _ => none

def JVal.isUndefined : JVal → Bool
  | .undefined => true
  | _ => false

/-- JS `+` as it is applied at `usageData.inputTokens + usageData.outputTokens`:
numeric addition on numbers. (On non-numeric operands JS performs ToPrimitive
coercion, approximated here by string concatenation of the rendered operands;
no theorem below depends on that branch.) -/
def jsToDisplayString : JVal → String
  | .null => "null"
  | .undefined => "undefined"
  | .bool b => if b then "true" else "false"
  | .num n => toString n
  | .str s => s
  | .arr _ => ""
  | .obj _ => "[object Object]"

def jsAdd : JVal → JVal → JVal
  | .num a, .num b => .num (a + b)
  | a, b => .str (jsToDisplayString a ++ jsToDisplayString b)

-- Type guard functions of `stream-transformer.ts` (lines 66-79, 227-229).

/-- `isReasoningData` (line 66): an object with a `reasoning` or `toolCode` key. -/
def isReasoningData (data : JVal) : Bool :=
  isJsObject data && (jsHasProp data "reasoning" || jsHasProp data "toolCode")

/-- `isGeminiFunctionCall` (line 70): an object with `name` and `args` keys. -/
def isGeminiFunctionCall (data : JVal) : Bool :=
  isJsObject data && jsHasProp data "name" && jsHasProp data "args"

/-- `isUsageData` (line 74): an object with `inputTokens` and `outputTokens` keys. -/
def isUsageData (data : JVal) : Bool :=
  isJsObject data && jsHasProp data "inputTokens" && jsHasProp data "outputTokens"

/-- `isNativeToolResponse` (line 77): an object with `type` and `data` keys. -/
def isNativeToolResponse (data : JVal) : Bool :=
  isJsObject data && jsHasProp data "type" && jsHasProp data "data"

/-- `isGeminiNativeResponse` (line 227): an object with a `candidates` key. -/
def isGeminiNativeResponse (data : JVal) : Bool :=
  isJsObject data && jsHasProp data "candidates"

-- JSON serialization, modelling `JSON.stringify` (compact output).

def hexDigitChar (n : Nat) : Char :=
  if n < 10 then Char.ofNat (48 + n) else Char.ofNat (87 + n)

/-- `JSON.stringify` escaping of one character inside a string literal. -/
def jsonEscapeChar (c : Char) : String :=
  if c = '"' then "\\\""
  else if c = '\\' then "\\\\"
  else if c = '\n' then "\\n"
  else if c = '\r' then "\\r"
  else if c = '\t' then "\\t"
  else if c = '\x08' then "\\b"
  else if c = '\x0c' then "\\f"
  else if c.toNat < 0x20 then
    "\\u00" ++ String.singleton (hexDigitChar (c.toNat / 16)) ++
      String.singleton (hexDigitChar (c.toNat % 16))
  else String.singleton c

def jsonEscape (s : String) : String :=
  String.join (s.data.map jsonEscapeChar)

def jsonQuote (s : String) : String :=
  "\"" ++ jsonEscape s ++ "\""

mutual

/-- Compact JSON rendering of a value, as `JSON.stringify` produces it:
object keys holding `undefined` are dropped, `undefined` array elements
render as `null`. (A top-level `undefined`, for which `JSON.stringify`
returns the non-string `undefined`, is rendered `"null"`; that case is
unreachable from the payloads the transformer serializes.) -/
def JVal.serialize : JVal → String
  | .null => "null"
  | .undefined => "null"
  | .bool b => if b then "true" else "false"
  | .num n => toString n
  | .str s => jsonQuote s
  | .arr elems => "[" ++ String.intercalate "," (serializeElems elems) ++ "]"
  | .obj fields => "\x7b" ++ String.intercalate "," (serializeFields fields) ++ "\x7d"

def serializeElems : List JVal → List String
  | [] => []
  | v :: rest => JVal.serialize v :: serializeElems rest

def serializeFields : List (String × JVal) → List String
  | [] => []
  | (k, v) :: rest =>
      if v.isUndefined then serializeFields rest
      else (jsonQuote k ++ ":" ++ JVal.serialize v) :: serializeFields rest

end

-- The stream chunk fed to the OpenAI-compatible transformer: a `type` tag
-- string and an untyped payload (`StreamChunk` in `src/types.ts`).

structure StreamChunk where
  type : String
  data : JVal

-- OpenAI API interfaces (`stream-transformer.ts` lines 7-63).
-- `function.name` is kept as a `JVal` because the source reads it from an
-- untyped payload; `arguments` is the `JSON.stringify` of the `args` payload.

structure OpenAIToolCallFunction where
  name : JVal
  arguments : String

structure OpenAIToolCall where
  index : Nat
  id : String
  type : String
  function : OpenAIToolCallFunction

/-- `OpenAIDelta` (line 25): each field is `none` when the key was never
assigned. A field holding `some .undefined` models a key assigned the JS value
`undefined` (counted by `Object.keys`, dropped by `JSON.stringify`).
The declared `reasoning_content` member is never assigned by the source and
is omitted. -/
structure OpenAIDelta where
  role : Option String := none
  content : Option JVal := none
  reasoning : Option JVal := none
  tool_calls : Option (List OpenAIToolCall) := none
  native_tool_calls : Option (List JVal) := none
  grounding : Option JVal := none

/-- `Object.keys(delta).length`: the number of assigned keys. -/
def OpenAIDelta.keyCount (d : OpenAIDelta) : Nat :=
  (if d.role.isSome then 1 else 0) + (if d.content.isSome then 1 else 0) +
    (if d.reasoning.isSome then 1 else 0) + (if d.tool_calls.isSome then 1 else 0) +
    (if d.native_tool_calls.isSome then 1 else 0) + (if d.grounding.isSome then 1 else 0)

/-- `OpenAIChoice` (line 17). `logprobs` and `matched_stop` are the constant
`null` in every emitted chunk and are not modelled as fields. -/
structure OpenAIChoice where
  index : Nat
  delta : OpenAIDelta
  finish_reason : Option String

/-- `OpenAIChunk` (line 35); its `usage` member is the constant `null`. -/
structure OpenAIChunk where
  id : String
  object : String
  created : Nat
  model : String
  choices : List OpenAIChoice

/-- `OpenAIUsage` (line 50): fields read off the buffered untyped payload. -/
structure OpenAIUsage where
  prompt_tokens : JVal
  completion_tokens : JVal
  total_tokens : JVal

/-- `OpenAIFinalChoice` (line 44); its `delta` member is the empty object. -/
structure OpenAIFinalChoice where
  index : Nat
  finish_reason : String

/-- `OpenAIFinalChunk` (line 56); `usage = none` means the key is absent. -/
structure OpenAIFinalChunk where
  id : String
  object : String
  created : Nat
  model : String
  choices : List OpenAIFinalChoice
  usage : Option OpenAIUsage

/-- An SSE frame written by the OpenAI-compatible transformer: a content
chunk, the terminal chunk, or the literal `data: [DONE]` sentinel. -/
inductive SSEFrame where
  | chunk (c : OpenAIChunk)
  | final (c : OpenAIFinalChunk)
  | done

/-- The per-session mutable variables of `createOpenAIStreamTransformer`
(lines 89-94). -/
structure TransformerState where
  firstChunk : Bool := true
  toolCallId : Option String := none
  finishReason : Option String := none
  toolCallName : Option JVal := none
  toolCallIndex : Nat := 0
  usageData : Option JVal := none

def initialState : TransformerState := {}

/-- The session constants fixed at instantiation (lines 85-87): the model
name, the correlation id, the creation timestamp, and the stream of values
produced by successive `crypto.randomUUID()` calls for tool-call ids
(`uuid k` is the value of the call made for the k-th well-formed
`tool_code` event). -/
structure OpenAISession where
  model : String
  chatID : String
  creationTime : Nat
  uuid : Nat → String

/-- Modelled from the spec: `OPENAI_CHAT_COMPLETION_OBJECT` is imported from
`src/config.ts`, which is not part of the sources; §6 of the spec fixes the
wire value to `"chat.completion.chunk"`. -/
def OPENAI_CHAT_COMPLETION_OBJECT : String := "chat.completion.chunk"

/-- The emission rule (lines 171-189): wrap the delta into one SSE chunk iff
it has at least one assigned key. -/
def emitDelta (st : TransformerState) (delta : OpenAIDelta) :
    TransformerState × Option OpenAIDelta :=
  (st, if 0 < delta.keyCount then some delta else none)

/-- The `transform` callback (lines 97-190), switching on `chunk.type` and
returning the updated state together with the delta of the frame enqueued
for this event, if any. -/
def stepOpenAI (uuid : Nat → String) (st : TransformerState) (chunk : StreamChunk) :
    TransformerState × Option OpenAIDelta :=
  if chunk.type = "text" ∨ chunk.type = "thinking_content" then
    match chunk.data.asString? with
    | some s =>
        if st.firstChunk then
          emitDelta { st with firstChunk := false }
            { content := some (.str s), role := some "assistant" }
        else emitDelta st { content := some (.str s) }
    | none => emitDelta st {}
  else if chunk.type = "real_thinking" then
    match chunk.data.asString? with
    | some s => emitDelta st { reasoning := some (.str s) }
    | none => emitDelta st {}
  else if chunk.type = "reasoning" then
    if isReasoningData chunk.data then
      emitDelta st { reasoning := some (jsGetProp chunk.data "reasoning") }
    else emitDelta st {}
  else if chunk.type = "tool_code" then
    if isGeminiFunctionCall chunk.data then
      let toolData := chunk.data
      let newName := jsGetProp toolData "name"
      let newId := "call_" ++ uuid st.toolCallIndex
      let toolCall : OpenAIToolCall :=
        { index := st.toolCallIndex, id := newId, type := "function",
          function := { name := newName,
                        arguments := (jsGetProp toolData "args").serialize } }
      let st1 := { st with toolCallName := some newName, toolCallId := some newId,
                           toolCallIndex := st.toolCallIndex + 1 }
      if st1.firstChunk then
        emitDelta { st1 with firstChunk := false }
          { tool_calls := some [toolCall], role := some "assistant",
            content := some .null }
      else emitDelta st1 { tool_calls := some [toolCall] }
    else emitDelta st {}
  else if chunk.type = "native_tool" then
    if isNativeToolResponse chunk.data then
      emitDelta st { native_tool_calls := some [chunk.data] }
    else emitDelta st {}
  else if chunk.type = "grounding_metadata" then
    if jsTruthy chunk.data then emitDelta st { grounding := some chunk.data }
    else emitDelta st {}
  else if chunk.type = "finish_reason" then
    match chunk.data.asString? with
    | some s => ({ st with finishReason := some s }, none)
    | none => (st, none)
  else if chunk.type = "usage" then
    if isUsageData chunk.data then ({ st with usageData := some chunk.data }, none)
    else (st, none)
  else emitDelta st {}

/-- Wrap an emitted delta into the full frame of lines 172-187. -/
def mkOpenAIChunk (sess : OpenAISession) (delta : OpenAIDelta) : OpenAIChunk :=
  { id := sess.chatID, object := OPENAI_CHAT_COMPLETION_OBJECT,
    created := sess.creationTime, model := sess.model,
    choices := [{ index := 0, delta := delta, finish_reason := none }] }

/-- Fold the state through a list of events. -/
def foldState (uuid : Nat → String) (st : TransformerState) :
    List StreamChunk → TransformerState
  | [] => st
  | c :: cs => foldState uuid (stepOpenAI uuid st c).1 cs

/-- The frames enqueued while processing a list of events (before `flush`). -/
def emittedFrames (sess : OpenAISession) (st : TransformerState) :
    List StreamChunk → List SSEFrame
  | [] => []
  | c :: cs =>
      (match (stepOpenAI sess.uuid st c).2 with
       | some d => [SSEFrame.chunk (mkOpenAIChunk sess d)]
       | none => []) ++ emittedFrames sess (stepOpenAI sess.uuid st c).1 cs

/-- The finish-reason resolution of `flush` (lines 192-202). -/
def mapFinishReason (fr : String) : String :=
  if fr = "STOP" then "stop"
  else if fr = "MAX_TOKENS" then "length"
  else if fr = "SAFETY" then "content_filter"
  else if fr = "RECITATION" then "content_filter"
  else "stop"

def resolveFinishReason (st : TransformerState) : String :=
  let base :=
    if jsTruthyOptStr st.finishReason then
      mapFinishReason (st.finishReason.getD "")
    else "stop"
  if jsTruthyOptStr st.toolCallId then "tool_calls" else base

/-- The usage object of lines 213-217, built from the buffered payload. -/
def mkUsage (u : JVal) : OpenAIUsage :=
  { prompt_tokens := jsGetProp u "inputTokens",
    completion_tokens := jsGetProp u "outputTokens",
    total_tokens := jsAdd (jsGetProp u "inputTokens") (jsGetProp u "outputTokens") }

/-- The terminal chunk built by `flush` (lines 204-218). -/
def mkFinalChunk (sess : OpenAISession) (st : TransformerState) : OpenAIFinalChunk :=
  { id := sess.chatID, object := OPENAI_CHAT_COMPLETION_OBJECT,
    created := sess.creationTime, model := sess.model,
    choices := [{ index := 0, finish_reason := resolveFinishReason st }],
    usage := st.usageData.map mkUsage }

/-- The `flush` callback (lines 191-222): one terminal frame then the
`[DONE]` sentinel. -/
def flushOpenAI (sess : OpenAISession) (st : TransformerState) : List SSEFrame :=
  [SSEFrame.final (mkFinalChunk sess st), SSEFrame.done]

def runOpenAIFrom (sess : OpenAISession) (st : TransformerState)
    (events : List StreamChunk) : List SSEFrame :=
  emittedFrames sess st events ++ flushOpenAI sess (foldState sess.uuid st events)

/-- `createOpenAIStreamTransformer(model)` applied to a whole event sequence.
`tok` is the `crypto.randomUUID()` drawn for the session id at line 86, so
the session id is the constant prefix `chatcmpl-` followed by it; `created`
is `Math.floor(Date.now()/1000)`; `uuid` supplies the tool-call ids. -/
def runOpenAI (model tok : String) (created : Nat) (uuid : Nat → String)
    (events : List StreamChunk) : List SSEFrame :=
  runOpenAIFrom ⟨model, "chatcmpl-" ++ tok, created, uuid⟩ initialState events

-- The Gemini native passthrough transformer (lines 238-257).

/-- `GeminiNativeStreamChunk`: its `type` member has the literal type
`"gemini_native"`, but the runtime re-checks it, so it is kept as data. -/
structure GeminiNativeStreamChunk where
  type : String
  data : JVal

/-- The native `transform` callback (lines 245-250): pass the payload
through unchanged when it carries a `candidates` key. -/
def stepNative (chunk : GeminiNativeStreamChunk) : List JVal :=
  if chunk.type = "gemini_native" ∧ isGeminiNativeResponse chunk.data then
    [chunk.data]
  else []

/-- The native `flush` callback (lines 251-255): emits nothing. -/
def flushNative : List JVal := []

/-- `createGeminiNativeStreamTransformer()` applied to a whole sequence;
each output element is the payload of one `data:` frame, in order. -/
def runNative : List GeminiNativeStreamChunk → List JVal
  | [] => flushNative
  | c :: cs => stepNative c ++ runNative cs

/-- Byte rendering of one native SSE frame (line 248). -/
def renderNativeFrame (j : JVal) : String :=
  "data: " ++ j.serialize ++ "\n\n"

/-- Byte rendering of the sentinel terminator frame (line 221). -/
def renderDoneFrame : String := "data: [DONE]\n\n"

-- Event classification, in closed form, for stating properties of runs.

/-- A `tool_code` event whose payload passes `isGeminiFunctionCall`. -/
def isWfToolChunk (c : StreamChunk) : Bool :=
  c.type == "tool_code" && isGeminiFunctionCall c.data

/-- An event that counts as content-bearing: a `text`/`thinking_content`
event with a string payload, or a well-formed `tool_code` event. Exactly
these clear the `firstChunk` flag and set `role: "assistant"`. -/
def isWfContentChunk (c : StreamChunk) : Bool :=
  ((c.type == "text" || c.type == "thinking_content") && (c.data.asString?).isSome)
    || isWfToolChunk c

/-- The finish signal buffered by a `finish_reason` event, if well-formed. -/
def wfSignal? (c : StreamChunk) : Option String :=
  if c.type = "finish_reason" then c.data.asString? else none

/-- The usage payload buffered by a `usage` event, if well-formed. -/
def wfUsage? (c : StreamChunk) : Option JVal :=
  if c.type = "usage" ∧ isUsageData c.data then some c.data else none

/-- Last-writer-wins buffering: a newly latched value replaces the old one. -/
def latch {α : Type} (new old : Option α) : Option α :=
  match new with
  | some x => some x
  | none => old

/-- The tool-call record synthesized for the well-formed `tool_code` event
processed at position counter `i`. -/
def mkToolCallRecord (uuid : Nat → String) (i : Nat) (d : JVal) : OpenAIToolCall :=
  { index := i, id := "call_" ++ uuid i, type := "function",
    function := { name := jsGetProp d "name",
                  arguments := (jsGetProp d "args").serialize } }

/-- The session state after one event, in closed form. -/
def stepState (uuid : Nat → String) (st : TransformerState) (c : StreamChunk) :
    TransformerState :=
  { firstChunk := st.firstChunk && !isWfContentChunk c,
    toolCallId := if isWfToolChunk c then some ("call_" ++ uuid st.toolCallIndex)
                  else st.toolCallId,
    finishReason := latch (wfSignal? c) st.finishReason,
    toolCallName := if isWfToolChunk c then some (jsGetProp c.data "name")
                    else st.toolCallName,
    toolCallIndex := if isWfToolChunk c then st.toolCallIndex + 1 else st.toolCallIndex,
    usageData := latch (wfUsage? c) st.usageData }

theorem stepOpenAI_fst (uuid : Nat → String) (st : TransformerState) (c : StreamChunk) :
    (stepOpenAI uuid st c).1 = stepState uuid st c := by
  obtain ⟨ty, d⟩ := c
  obtain ⟨fc, tid, fr, tn, ti, ud⟩ := st
  by_cases h1 : ty = "text" ∨ ty = "thinking_content"
  · rcases h1 with h | h <;> subst h <;> cases hd : d.asString? <;> cases fc <;>
      simp_all [stepOpenAI, stepState, isWfContentChunk, isWfToolChunk, wfSignal?,
        wfUsage?, latch, emitDelta]
  by_cases h2 : ty = "real_thinking"
  · subst h2; cases hd : d.asString? <;>
      simp_all [stepOpenAI, stepState, isWfContentChunk, isWfToolChunk, wfSignal?,
        wfUsage?, latch, emitDelta]
  by_cases h3 : ty = "reasoning"
  · subst h3; by_cases hr : isReasoningData d <;>
      simp_all [stepOpenAI, stepState, isWfContentChunk, isWfToolChunk, wfSignal?,
        wfUsage?, latch, emitDelta]
  by_cases h4 : ty = "tool_code"
  · subst h4; by_cases hg : isGeminiFunctionCall d <;> cases fc <;>
      simp_all [stepOpenAI, stepState, isWfContentChunk, isWfToolChunk, wfSignal?,
        wfUsage?, latch, emitDelta]
  by_cases h5 : ty = "native_tool"
  · subst h5; by_cases hn : isNativeToolResponse d <;>
      simp_all [stepOpenAI, stepState, isWfContentChunk, isWfToolChunk, wfSignal?,
        wfUsage?, latch, emitDelta]
  by_cases h6 : ty = "grounding_metadata"
  · subst h6; by_cases hg : jsTruthy d <;>
      simp_all [stepOpenAI, stepState, isWfContentChunk, isWfToolChunk, wfSignal?,
        wfUsage?, latch, emitDelta]
  by_cases h7 : ty = "finish_reason"
  · subst h7; cases hd : d.asString? <;>
      simp_all [stepOpenAI, stepState, isWfContentChunk, isWfToolChunk, wfSignal?,
        wfUsage?, latch, emitDelta]
  by_cases h8 : ty = "usage"
  · subst h8; by_cases hu : isUsageData d <;>
      simp_all [stepOpenAI, stepState, isWfContentChunk, isWfToolChunk, wfSignal?,
        wfUsage?, latch, emitDelta]
  · simp_all [stepOpenAI, stepState, isWfContentChunk, isWfToolChunk, wfSignal?,
      wfUsage?, latch, emitDelta]


theorem stepOpenAI_snd_toolCalls (uuid : Nat → String) (st : TransformerState)
    (c : StreamChunk) :
    ((stepOpenAI uuid st c).2.bind OpenAIDelta.tool_calls) =
      if isWfToolChunk c then some [mkToolCallRecord uuid st.toolCallIndex c.data]
      else none := by
  obtain ⟨ty, d⟩ := c
  obtain ⟨fc, tid, fr, tn, ti, ud⟩ := st
  by_cases h1 : ty = "text" ∨ ty = "thinking_content"
  · rcases h1 with h | h <;> subst h <;> cases hd : d.asString? <;> cases fc <;>
      simp_all [stepOpenAI, isWfToolChunk, mkToolCallRecord, emitDelta, OpenAIDelta.keyCount]
  by_cases h2 : ty = "real_thinking"
  · subst h2; cases hd : d.asString? <;>
      simp_all [stepOpenAI, isWfToolChunk, mkToolCallRecord, emitDelta, OpenAIDelta.keyCount]
  by_cases h3 : ty = "reasoning"
  · subst h3; by_cases hr : isReasoningData d <;>
      simp_all [stepOpenAI, isWfToolChunk, mkToolCallRecord, emitDelta, OpenAIDelta.keyCount]
  by_cases h4 : ty = "tool_code"
  · subst h4; by_cases hg : isGeminiFunctionCall d <;> cases fc <;>
      simp_all [stepOpenAI, isWfToolChunk, mkToolCallRecord, emitDelta, OpenAIDelta.keyCount]
  by_cases h5 : ty = "native_tool"
  · subst h5; by_cases hn : isNativeToolResponse d <;>
      simp_all [stepOpenAI, isWfToolChunk, mkToolCallRecord, emitDelta, OpenAIDelta.keyCount]
  by_cases h6 : ty = "grounding_metadata"
  · subst h6; by_cases hg : jsTruthy d <;>
      simp_all [stepOpenAI, isWfToolChunk, mkToolCallRecord, emitDelta, OpenAIDelta.keyCount]
  by_cases h7 : ty = "finish_reason"
  · subst h7; cases hd : d.asString? <;>
      simp_all [stepOpenAI, isWfToolChunk, mkToolCallRecord, emitDelta, OpenAIDelta.keyCount]
  by_cases h8 : ty = "usage"
  · subst h8; by_cases hu : isUsageData d <;>
      simp_all [stepOpenAI, isWfToolChunk, mkToolCallRecord, emitDelta, OpenAIDelta.keyCount]
  · simp_all [stepOpenAI, isWfToolChunk, mkToolCallRecord, emitDelta, OpenAIDelta.keyCount]

theorem stepOpenAI_snd_role (uuid : Nat → String) (st : TransformerState)
    (c : StreamChunk) :
    ((stepOpenAI uuid st c).2.bind OpenAIDelta.role) =
      if st.firstChunk && isWfContentChunk c then some "assistant" else none := by
  obtain ⟨ty, d⟩ := c
  obtain ⟨fc, tid, fr, tn, ti, ud⟩ := st
  by_cases h1 : ty = "text" ∨ ty = "thinking_content"
  · rcases h1 with h | h <;> subst h <;> cases hd : d.asString? <;> cases fc <;>
      simp_all [stepOpenAI, isWfContentChunk, isWfToolChunk, emitDelta, OpenAIDelta.keyCount]
  by_cases h2 : ty = "real_thinking"
  · subst h2; cases hd : d.asString? <;>
      simp_all [stepOpenAI, isWfContentChunk, isWfToolChunk, emitDelta, OpenAIDelta.keyCount]
  by_cases h3 : ty = "reasoning"
  · subst h3; by_cases hr : isReasoningData d <;>
      simp_all [stepOpenAI, isWfContentChunk, isWfToolChunk, emitDelta, OpenAIDelta.keyCount]
  by_cases h4 : ty = "tool_code"
  · subst h4; by_cases hg : isGeminiFunctionCall d <;> cases fc <;>
      simp_all [stepOpenAI, isWfContentChunk, isWfToolChunk, emitDelta, OpenAIDelta.keyCount]
  by_cases h5 : ty = "native_tool"
  · subst h5; by_cases hn : isNativeToolResponse d <;>
      simp_all [stepOpenAI, isWfContentChunk, isWfToolChunk, emitDelta, OpenAIDelta.keyCount]
  by_cases h6 : ty = "grounding_metadata"
  · subst h6; by_cases hg : jsTruthy d <;>
      simp_all [stepOpenAI, isWfContentChunk, isWfToolChunk, emitDelta, OpenAIDelta.keyCount]
  by_cases h7 : ty = "finish_reason"
  · subst h7; cases hd : d.asString? <;>
      simp_all [stepOpenAI, isWfContentChunk, isWfToolChunk, emitDelta, OpenAIDelta.keyCount]
  by_cases h8 : ty = "usage"
  · subst h8; by_cases hu : isUsageData d <;>
      simp_all [stepOpenAI, isWfContentChunk, isWfToolChunk, emitDelta, OpenAIDelta.keyCount]
  · simp_all [stepOpenAI, isWfContentChunk, isWfToolChunk, emitDelta, OpenAIDelta.keyCount]


/-- The `type` tags the `transform` switch recognizes. -/
def knownChunkTypes : List String :=
  ["text", "thinking_content", "real_thinking", "reasoning", "tool_code",
   "native_tool", "grounding_metadata", "finish_reason", "usage"]

/-- An event the transformer silently drops: a recognized `type` whose
payload fails that case's structural check, or an unrecognized `type`. -/
def isDroppedChunk (c : StreamChunk) : Bool :=
  ((c.type == "text" || c.type == "thinking_content" || c.type == "real_thinking"
      || c.type == "finish_reason") && (c.data.asString?).isNone)
    || (c.type == "reasoning" && !isReasoningData c.data)
    || (c.type == "tool_code" && !isGeminiFunctionCall c.data)
    || (c.type == "native_tool" && !isNativeToolResponse c.data)
    || (c.type == "grounding_metadata" && !jsTruthy c.data)
    || (c.type == "usage" && !isUsageData c.data)
    || !(knownChunkTypes.contains c.type)

theorem stepOpenAI_dropped (uuid : Nat → String) (st : TransformerState)
    (c : StreamChunk) (h : isDroppedChunk c = true) :
    stepOpenAI uuid st c = (st, none) := by
  obtain ⟨ty, d⟩ := c
  by_cases h1 : ty = "text" ∨ ty = "thinking_content"
  · rcases h1 with h1 | h1 <;> subst h1 <;> cases hd : d.asString? <;>
      simp_all [stepOpenAI, isDroppedChunk, knownChunkTypes, emitDelta, OpenAIDelta.keyCount]
  by_cases h2 : ty = "real_thinking"
  · subst h2; cases hd : d.asString? <;>
      simp_all [stepOpenAI, isDroppedChunk, knownChunkTypes, emitDelta, OpenAIDelta.keyCount]
  by_cases h3 : ty = "reasoning"
  · subst h3; by_cases hr : isReasoningData d <;>
      simp_all [stepOpenAI, isDroppedChunk, knownChunkTypes, emitDelta, OpenAIDelta.keyCount]
  by_cases h4 : ty = "tool_code"
  · subst h4; by_cases hg : isGeminiFunctionCall d <;>
      simp_all [stepOpenAI, isDroppedChunk, knownChunkTypes, emitDelta, OpenAIDelta.keyCount]
  by_cases h5 : ty = "native_tool"
  · subst h5; by_cases hn : isNativeToolResponse d <;>
      simp_all [stepOpenAI, isDroppedChunk, knownChunkTypes, emitDelta, OpenAIDelta.keyCount]
  by_cases h6 : ty = "grounding_metadata"
  · subst h6; by_cases hg : jsTruthy d <;>
      simp_all [stepOpenAI, isDroppedChunk, knownChunkTypes, emitDelta, OpenAIDelta.keyCount]
  by_cases h7 : ty = "finish_reason"
  · subst h7; cases hd : d.asString? <;>
      simp_all [stepOpenAI, isDroppedChunk, knownChunkTypes, emitDelta, OpenAIDelta.keyCount]
  by_cases h8 : ty = "usage"
  · subst h8; by_cases hu : isUsageData d <;>
      simp_all [stepOpenAI, isDroppedChunk, knownChunkTypes, emitDelta, OpenAIDelta.keyCount]
  · simp_all [stepOpenAI, isDroppedChunk, knownChunkTypes, emitDelta, OpenAIDelta.keyCount]

theorem stepOpenAI_finish_no_frame (uuid : Nat → String) (st : TransformerState)
    (c : StreamChunk) (h : c.type = "finish_reason") :
    (stepOpenAI uuid st c).2 = none := by
  obtain ⟨ty, d⟩ := c
  simp only at h
  subst h
  cases hd : d.asString? <;> simp_all [stepOpenAI]

theorem stepOpenAI_usage_no_frame (uuid : Nat → String) (st : TransformerState)
    (c : StreamChunk) (h : c.type = "usage") :
    (stepOpenAI uuid st c).2 = none := by
  obtain ⟨ty, d⟩ := c
  simp only at h
  subst h
  by_cases hu : isUsageData d <;> simp_all [stepOpenAI]


-- Projections of emitted frames, for stating the observable properties.

def SSEFrame.delta? : SSEFrame → Option OpenAIDelta
  | .chunk c => c.choices.head?.map OpenAIChoice.delta
  | _ => none

def frameID : SSEFrame → Option String
  | .chunk c => some c.id
  | .final c => some c.id
  | .done => none

def frameCreated : SSEFrame → Option Nat
  | .chunk c => some c.created
  | .final c => some c.created
  | .done => none

/-- The tool-call lists carried by the frames, one entry per frame whose
delta has the `tool_calls` key. -/
def toolCallLists (frames : List SSEFrame) : List (List OpenAIToolCall) :=
  frames.filterMap (fun f => (SSEFrame.delta? f).bind OpenAIDelta.tool_calls)

def toolCallIds (frames : List SSEFrame) : List String :=
  ((toolCallLists frames).flatten).map OpenAIToolCall.id

/-- The string contents of the frames, one entry per frame whose delta
carries a string `content`. -/
def contentStrings (frames : List SSEFrame) : List String :=
  frames.filterMap
    (fun f => (SSEFrame.delta? f).bind (fun d => d.content.bind JVal.asString?))

/-- The roles carried by the frames, one entry per frame with a `role` key. -/
def frameRoles (frames : List SSEFrame) : List String :=
  frames.filterMap (fun f => (SSEFrame.delta? f).bind OpenAIDelta.role)

def finalChunks (frames : List SSEFrame) : List OpenAIFinalChunk :=
  frames.filterMap (fun f => match f with | .final c => some c | _ => none)

def terminalFinishReasons (frames : List SSEFrame) : List String :=
  ((finalChunks frames).map (fun c => c.choices.map OpenAIFinalChoice.finish_reason)).flatten

def terminalUsages (frames : List SSEFrame) : List (Option OpenAIUsage) :=
  (finalChunks frames).map OpenAIFinalChunk.usage

/-- The tool-call frame payloads expected for the given argument payloads,
indexed consecutively from `i`. -/
def expectedToolCallLists (uuid : Nat → String) :
    Nat → List JVal → List (List OpenAIToolCall)
  | _, [] => []
  | i, d :: ds => [mkToolCallRecord uuid i d] :: expectedToolCallLists uuid (i + 1) ds

-- Decomposition lemmas for runs.

theorem foldState_append (uuid : Nat → String) (st : TransformerState)
    (xs ys : List StreamChunk) :
    foldState uuid st (xs ++ ys) = foldState uuid (foldState uuid st xs) ys := by
  induction xs generalizing st with
  | nil => simp [foldState]
  | cons c cs ih => simp [foldState, ih]

theorem emittedFrames_append (sess : OpenAISession) (st : TransformerState)
    (xs ys : List StreamChunk) :
    emittedFrames sess st (xs ++ ys) =
      emittedFrames sess st xs ++ emittedFrames sess (foldState sess.uuid st xs) ys := by
  induction xs generalizing st with
  | nil => simp [emittedFrames, foldState]
  | cons c cs ih => simp [emittedFrames, foldState, ih]

/-- Every frame enqueued by `transform` is a content chunk of the session. -/
theorem emittedFrames_shape (sess : OpenAISession) (st : TransformerState)
    (events : List StreamChunk) :
    ∀ f ∈ emittedFrames sess st events, ∃ d, f = SSEFrame.chunk (mkOpenAIChunk sess d) := by
  induction events generalizing st with
  | nil => simp [emittedFrames]
  | cons c cs ih =>
    intro f hf
    simp only [emittedFrames, List.mem_append] at hf
    rcases hf with hf | hf
    · rcases hd : (stepOpenAI sess.uuid st c).2 with _ | d <;> rw [hd] at hf <;>
        simp at hf
      exact ⟨d, hf⟩
    · exact ih _ f hf

theorem toolCallLists_emittedFrames (sess : OpenAISession) (st : TransformerState)
    (events : List StreamChunk) :
    toolCallLists (emittedFrames sess st events) =
      expectedToolCallLists sess.uuid st.toolCallIndex
        ((events.filter isWfToolChunk).map StreamChunk.data) := by
  induction events generalizing st with
  | nil => simp [emittedFrames, toolCallLists, expectedToolCallLists]
  | cons c cs ih =>
    have hsnd := stepOpenAI_snd_toolCalls sess.uuid st c
    have hfst := stepOpenAI_fst sess.uuid st c
    simp only [emittedFrames, toolCallLists, List.filterMap_append] at *
    rw [ih ((stepOpenAI sess.uuid st c).1), hfst]
    rcases hd : (stepOpenAI sess.uuid st c).2 with _ | d <;> rw [hd] at hsnd
    · have hwf : isWfToolChunk c = false := by
        by_contra hx
        simp only [Bool.not_eq_false] at hx
        rw [hx] at hsnd
        simp at hsnd
      simp [hwf, hsnd, List.filter_cons, stepState]
    · by_cases hwf : isWfToolChunk c
      · rw [if_pos hwf] at hsnd
        simp only [Option.some_bind] at hsnd
        simp [hwf, List.filter_cons, List.filterMap_cons, SSEFrame.delta?,
          mkOpenAIChunk, hsnd, expectedToolCallLists, stepState]
      · rw [if_neg hwf] at hsnd
        simp only [Bool.not_eq_true] at hwf
        simp [hwf, List.filter_cons, stepState, SSEFrame.delta?, mkOpenAIChunk, hsnd]

-- Closed forms for the folded session state.

theorem latch_getLast?_cons {α : Type} (x : α) (l : List α) (old : Option α) :
    latch ((x :: l).getLast?) old = latch l.getLast? (some x) := by
  cases l with
  | nil => simp [latch]
  | cons b bs =>
    rw [List.getLast?_cons_cons]
    rcases h : (b :: bs).getLast? with _ | y
    · simp [List.getLast?_eq_none_iff] at h
    · simp [latch]

theorem foldState_finishReason (uuid : Nat → String) (st : TransformerState)
    (events : List StreamChunk) :
    (foldState uuid st events).finishReason =
      latch (events.filterMap wfSignal?).getLast? st.finishReason := by
  induction events generalizing st with
  | nil => simp [foldState, latch]
  | cons c cs ih =>
    rw [foldState, ih, stepOpenAI_fst]
    rcases h : wfSignal? c with _ | s
    · simp only [List.filterMap_cons, h, stepState, latch]
    · simp only [List.filterMap_cons, h, stepState]
      rw [latch_getLast?_cons]
      simp [latch]

theorem foldState_usageData (uuid : Nat → String) (st : TransformerState)
    (events : List StreamChunk) :
    (foldState uuid st events).usageData =
      latch (events.filterMap wfUsage?).getLast? st.usageData := by
  induction events generalizing st with
  | nil => simp [foldState, latch]
  | cons c cs ih =>
    rw [foldState, ih, stepOpenAI_fst]
    rcases h : wfUsage? c with _ | u
    · simp only [List.filterMap_cons, h, stepState, latch]
    · simp only [List.filterMap_cons, h, stepState]
      rw [latch_getLast?_cons]
      simp [latch]

theorem foldState_firstChunk (uuid : Nat → String) (st : TransformerState)
    (events : List StreamChunk) :
    (foldState uuid st events).firstChunk =
      (st.firstChunk && !(events.any isWfContentChunk)) := by
  induction events generalizing st with
  | nil => simp [foldState]
  | cons c cs ih =>
    rw [foldState, ih, stepOpenAI_fst]
    simp only [stepState, List.any_cons]
    cases st.firstChunk <;> cases isWfContentChunk c <;> simp

theorem foldState_toolCallId_isSome (uuid : Nat → String) (st : TransformerState)
    (events : List StreamChunk) :
    (foldState uuid st events).toolCallId.isSome =
      (st.toolCallId.isSome || events.any isWfToolChunk) := by
  induction events generalizing st with
  | nil => simp [foldState]
  | cons c cs ih =>
    rw [foldState, ih, stepOpenAI_fst]
    simp only [stepState, List.any_cons]
    by_cases h : isWfToolChunk c
    · simp [h]
    · simp [h]

theorem foldState_toolCallId_ne_empty (uuid : Nat → String) (st : TransformerState)
    (events : List StreamChunk)
    (h : ∀ s, st.toolCallId = some s → s ≠ "") :
    ∀ s, (foldState uuid st events).toolCallId = some s → s ≠ "" := by
  induction events generalizing st with
  | nil => simpa [foldState] using h
  | cons c cs ih =>
    rw [foldState]
    apply ih
    intro s hs heq
    rw [stepOpenAI_fst] at hs
    simp only [stepState] at hs
    by_cases hw : isWfToolChunk c
    · rw [if_pos hw] at hs
      have hlen := congrArg String.length (Option.some.inj hs)
      rw [heq, String.length_append] at hlen
      rw [show "call_".length = 5 from rfl, show "".length = 0 from rfl] at hlen
      omega
    · rw [if_neg hw] at hs
      exact h s hs heq

/-- `if (toolCallId)` at flush time holds exactly when some well-formed
`tool_code` event occurred during the session. -/
theorem jsTruthy_final_toolCallId (uuid : Nat → String) (events : List StreamChunk) :
    jsTruthyOptStr (foldState uuid initialState events).toolCallId =
      events.any isWfToolChunk := by
  have hs := foldState_toolCallId_isSome uuid initialState events
  have hne := foldState_toolCallId_ne_empty uuid initialState events
    (by intro s hs'; simp [initialState] at hs')
  have hinit : initialState.toolCallId.isSome = false := rfl
  rcases h : (foldState uuid initialState events).toolCallId with _ | s
  · rw [h, hinit, Bool.false_or] at hs
    simp only [Option.isSome_none] at hs
    rw [show jsTruthyOptStr none = false from rfl, ← hs]
  · rw [h, hinit, Bool.false_or] at hs
    simp only [Option.isSome_some] at hs
    rw [← hs]
    simp [jsTruthyOptStr, hne s h]

-- Frame-level run lemmas.

theorem finalChunks_emittedFrames (sess : OpenAISession) (st : TransformerState)
    (events : List StreamChunk) :
    finalChunks (emittedFrames sess st events) = [] := by
  induction events generalizing st with
  | nil => simp [emittedFrames, finalChunks]
  | cons c cs ih =>
    simp only [emittedFrames, finalChunks, List.filterMap_append] at *
    rw [ih ((stepOpenAI sess.uuid st c).1)]
    rcases hd : (stepOpenAI sess.uuid st c).2 with _ | d <;> simp

/-- There is exactly one terminal chunk per run, built from the folded state. -/
theorem finalChunks_run (sess : OpenAISession) (st : TransformerState)
    (events : List StreamChunk) :
    finalChunks (runOpenAIFrom sess st events) =
      [mkFinalChunk sess (foldState sess.uuid st events)] := by
  simp only [runOpenAIFrom, finalChunks, List.filterMap_append]
  rw [← finalChunks, ← finalChunks, finalChunks_emittedFrames]
  simp [flushOpenAI, finalChunks]

theorem terminalFinishReasons_run (sess : OpenAISession) (st : TransformerState)
    (events : List StreamChunk) :
    terminalFinishReasons (runOpenAIFrom sess st events) =
      [resolveFinishReason (foldState sess.uuid st events)] := by
  simp [terminalFinishReasons, finalChunks_run, mkFinalChunk]

theorem terminalUsages_run (sess : OpenAISession) (st : TransformerState)
    (events : List StreamChunk) :
    terminalUsages (runOpenAIFrom sess st events) =
      [(foldState sess.uuid st events).usageData.map mkUsage] := by
  simp [terminalUsages, finalChunks_run, mkFinalChunk]

/-- Which frames of a run carry `role`, in closed form: at most the first
content-bearing frame, and only when the session still awaits it. -/
theorem frameRoles_emittedFrames (sess : OpenAISession) (st : TransformerState)
    (events : List StreamChunk) :
    frameRoles (emittedFrames sess st events) =
      if st.firstChunk && events.any isWfContentChunk then ["assistant"] else [] := by
  induction events generalizing st with
  | nil => simp [emittedFrames, frameRoles]
  | cons c cs ih =>
    have hrole := stepOpenAI_snd_role sess.uuid st c
    have hfst := stepOpenAI_fst sess.uuid st c
    simp only [emittedFrames, frameRoles, List.filterMap_append]
    rw [← frameRoles, ← frameRoles, ih ((stepOpenAI sess.uuid st c).1), hfst]
    simp only [stepState, List.any_cons]
    rcases hd : (stepOpenAI sess.uuid st c).2 with _ | d <;> rw [hd] at hrole
    · by_cases hfc : st.firstChunk = true <;> by_cases hwc : isWfContentChunk c = true <;>
        simp_all [frameRoles]
    · by_cases hfc : st.firstChunk = true <;> by_cases hwc : isWfContentChunk c = true <;>
        simp_all [frameRoles, List.filterMap_cons, SSEFrame.delta?, mkOpenAIChunk]

theorem toolCallLists_flush (sess : OpenAISession) (st : TransformerState) :
    toolCallLists (flushOpenAI sess st) = [] := by
  simp [toolCallLists, flushOpenAI, SSEFrame.delta?]

theorem frameRoles_flush (sess : OpenAISession) (st : TransformerState) :
    frameRoles (flushOpenAI sess st) = [] := by
  simp [frameRoles, flushOpenAI, SSEFrame.delta?]

theorem contentStrings_flush (sess : OpenAISession) (st : TransformerState) :
    contentStrings (flushOpenAI sess st) = [] := by
  simp [contentStrings, flushOpenAI, SSEFrame.delta?]

theorem toolCallLists_run (sess : OpenAISession) (st : TransformerState)
    (events : List StreamChunk) :
    toolCallLists (runOpenAIFrom sess st events) =
      expectedToolCallLists sess.uuid st.toolCallIndex
        ((events.filter isWfToolChunk).map StreamChunk.data) := by
  have h1 := toolCallLists_emittedFrames sess st events
  have h2 := toolCallLists_flush sess (foldState sess.uuid st events)
  simp only [toolCallLists] at h1 h2
  simp only [runOpenAIFrom, toolCallLists, List.filterMap_append, h1, h2]
  simp

theorem frameRoles_run (sess : OpenAISession) (st : TransformerState)
    (events : List StreamChunk) :
    frameRoles (runOpenAIFrom sess st events) =
      if st.firstChunk && events.any isWfContentChunk then ["assistant"] else [] := by
  have h1 := frameRoles_emittedFrames sess st events
  have h2 := frameRoles_flush sess (foldState sess.uuid st events)
  simp only [frameRoles] at h1 h2
  simp only [runOpenAIFrom, frameRoles, List.filterMap_append, h1, h2]
  simp

-- Runs consisting only of `text` events, for the content-concatenation law.

def textChunk (s : String) : StreamChunk := ⟨"text", .str s⟩

theorem contentStrings_append (fs1 fs2 : List SSEFrame) :
    contentStrings (fs1 ++ fs2) = contentStrings fs1 ++ contentStrings fs2 := by
  simp [contentStrings]

theorem contentStrings_text_emitted (sess : OpenAISession) (st : TransformerState)
    (texts : List String) :
    contentStrings (emittedFrames sess st (texts.map textChunk)) = texts := by
  induction texts generalizing st with
  | nil => simp [emittedFrames, contentStrings]
  | cons s rest ih =>
    simp only [List.map_cons, emittedFrames, contentStrings_append]
    rw [ih]
    by_cases hfc : st.firstChunk = true <;>
      simp [stepOpenAI, textChunk, emitDelta, OpenAIDelta.keyCount, hfc,
        contentStrings, List.filterMap_cons, SSEFrame.delta?, mkOpenAIChunk,
        JVal.asString?]

theorem contentStrings_text_run (sess : OpenAISession) (st : TransformerState)
    (texts : List String) :
    contentStrings (runOpenAIFrom sess st (texts.map textChunk)) = texts := by
  have h1 := contentStrings_text_emitted sess st texts
  have h2 := contentStrings_flush sess
    (foldState sess.uuid st (texts.map textChunk))
  simp only [contentStrings] at h1 h2
  simp only [runOpenAIFrom, contentStrings, List.filterMap_append, h1, h2]
  simp

-- The native passthrough run, in closed form.

theorem runNative_filter (events : List GeminiNativeStreamChunk)
    (h : ∀ e ∈ events, e.type = "gemini_native") :
    runNative events =
      (events.filter (fun e => isGeminiNativeResponse e.data)).map
        GeminiNativeStreamChunk.data := by
  induction events with
  | nil => simp [runNative, flushNative]
  | cons c cs ih =>
    have hc : c.type = "gemini_native" := h c (by simp)
    have ihh := ih (fun e he => h e (by simp [he]))
    by_cases hg : isGeminiNativeResponse c.data <;>
      simp [runNative, stepNative, hc, hg, List.filter_cons, ihh]

-- Remaining helper lemmas.

/-- The flush-time finish-reason resolution, phrased over the buffered value. -/
theorem resolveFinishReason_spec (st : TransformerState) :
    resolveFinishReason st =
      if jsTruthyOptStr st.toolCallId then "tool_calls"
      else
        match st.finishReason with
        | some fr => mapFinishReason fr
        | none => "stop" := by
  unfold resolveFinishReason
  rcases h : st.finishReason with _ | fr
  · simp [jsTruthyOptStr]
  · by_cases hfr : fr = ""
    · subst hfr
      simp [jsTruthyOptStr, mapFinishReason]
    · simp [jsTruthyOptStr, hfr]

theorem string_append_cancel_left {p a b : String} (h : p ++ a = p ++ b) : a = b := by
  have hd := congrArg String.data h
  rw [String.data_append, String.data_append] at hd
  exact String.ext (List.append_cancel_left hd)

theorem expectedToolCallLists_ids (uuid : Nat → String) (i : Nat) (ds : List JVal) :
    ((expectedToolCallLists uuid i ds).flatten).map OpenAIToolCall.id =
      (List.range' i ds.length).map (fun k => "call_" ++ uuid k) := by
  induction ds generalizing i with
  | nil => simp [expectedToolCallLists]
  | cons d rest ih =>
    simp [expectedToolCallLists, mkToolCallRecord, List.range', ih]

-- The claims.

/-- C4: every incoming event of the Native Passthrough Transformer whose
payload passes the structural `candidates` check yields exactly one frame
carrying that payload unchanged, in arrival order; the flush emits no
terminal frame and no sentinel, so the output is exactly one data frame
per passing envelope. -/
theorem claim_C4_native_passthrough (events : List GeminiNativeStreamChunk)
    (h : ∀ e ∈ events, e.type = "gemini_native") :
    runNative events =
      (events.filter (fun e => isGeminiNativeResponse e.data)).map
        GeminiNativeStreamChunk.data
    ∧ flushNative = [] :=
  ⟨runNative_filter events h, rfl⟩

theorem claim_C4_witness :
    runNative
        [⟨"gemini_native", .obj [("candidates", .arr [.obj [("content", .str "hi")]])]⟩,
         ⟨"gemini_native", .str "zap"⟩,
         ⟨"gemini_native", .obj [("candidates", .null)]⟩] =
      [.obj [("candidates", .arr [.obj [("content", .str "hi")]])],
       .obj [("candidates", .null)]]
    ∧ flushNative = [] := by
  have h := claim_C4_native_passthrough
    [⟨"gemini_native", .obj [("candidates", .arr [.obj [("content", .str "hi")]])]⟩,
     ⟨"gemini_native", .str "zap"⟩,
     ⟨"gemini_native", .obj [("candidates", .null)]⟩] (by decide)
  rw [h.1]
  exact ⟨rfl, h.2⟩

/-- C6: on an empty event sequence the OpenAI-compatible transformer emits
exactly two frames — a terminal frame with empty delta and
`finish_reason: "stop"`, then the literal sentinel `data: [DONE]` — and the
Native Passthrough Transformer emits zero frames. -/
theorem claim_C6_empty_stream (model tok : String) (created : Nat)
    (uuid : Nat → String) :
    runOpenAI model tok created uuid [] =
      [SSEFrame.final
        { id := "chatcmpl-" ++ tok, object := OPENAI_CHAT_COMPLETION_OBJECT,
          created := created, model := model,
          choices := [{ index := 0, finish_reason := "stop" }], usage := none },
       SSEFrame.done]
    ∧ renderDoneFrame = "data: [DONE]\n\n"
    ∧ runNative [] = [] := by
  refine ⟨?_, rfl, rfl⟩
  simp [runOpenAI, runOpenAIFrom, emittedFrames, foldState, flushOpenAI,
    mkFinalChunk, resolveFinishReason, jsTruthyOptStr, initialState]

/-- C7: an event whose payload matches no known structural shape emits no
frame, leaves the session state unchanged, and the rest of the stream is
processed exactly as if the event had not arrived. -/
theorem claim_C7_silent_drop (uuid : Nat → String) (c : StreamChunk)
    (h : isDroppedChunk c = true) :
    (∀ st : TransformerState, stepOpenAI uuid st c = (st, none))
    ∧ ∀ (model tok : String) (created : Nat) (l1 l2 : List StreamChunk),
        runOpenAI model tok created uuid (l1 ++ c :: l2) =
          runOpenAI model tok created uuid (l1 ++ l2) := by
  refine ⟨fun st => stepOpenAI_dropped uuid st c h, ?_⟩
  intro model tok created l1 l2
  simp only [runOpenAI, runOpenAIFrom, emittedFrames_append, foldState_append,
    emittedFrames, foldState]
  rw [stepOpenAI_dropped uuid _ c h]
  simp

theorem claim_C7_witness :
    (stepOpenAI (fun _ => "u") initialState ⟨"tool_code", .str "broken"⟩ =
      (initialState, none))
    ∧ runOpenAI "m" "t" 3 (fun _ => "u")
        ([textChunk "a"] ++ ⟨"tool_code", .str "broken"⟩ :: [textChunk "b"]) =
      runOpenAI "m" "t" 3 (fun _ => "u") ([textChunk "a"] ++ [textChunk "b"]) := by
  have h := claim_C7_silent_drop (fun _ => "u") ⟨"tool_code", .str "broken"⟩ (by decide)
  exact ⟨h.1 initialState, h.2 "m" "t" 3 [textChunk "a"] [textChunk "b"]⟩

/-- C8: every frame of one session other than the sentinel carries the
session id — the constant prefix `chatcmpl-` plus the token generated at
instantiation — and the creation timestamp, both fixed for the session. -/
theorem claim_C8_session_constants (model tok : String) (created : Nat)
    (uuid : Nat → String) (events : List StreamChunk) :
    ∀ f ∈ runOpenAI model tok created uuid events,
      f = SSEFrame.done ∨
        (frameID f = some ("chatcmpl-" ++ tok) ∧ frameCreated f = some created) := by
  intro f hf
  simp only [runOpenAI, runOpenAIFrom, List.mem_append] at hf
  rcases hf with hf | hf
  · rcases emittedFrames_shape _ _ _ f hf with ⟨d, rfl⟩
    right
    simp [frameID, frameCreated, mkOpenAIChunk]
  · simp only [flushOpenAI, List.mem_cons, List.not_mem_nil, or_false] at hf
    rcases hf with rfl | rfl
    · right
      simp [frameID, frameCreated, mkFinalChunk]
    · left
      rfl

theorem claim_C8_witness :
    SSEFrame.final
        (mkFinalChunk ⟨"m", "chatcmpl-" ++ "t", 3, fun _ => "u"⟩ initialState) =
      SSEFrame.done ∨
    (frameID (SSEFrame.final
        (mkFinalChunk ⟨"m", "chatcmpl-" ++ "t", 3, fun _ => "u"⟩ initialState)) =
          some ("chatcmpl-" ++ "t")
      ∧ frameCreated (SSEFrame.final
          (mkFinalChunk ⟨"m", "chatcmpl-" ++ "t", 3, fun _ => "u"⟩ initialState)) =
            some 3) :=
  claim_C8_session_constants "m" "t" 3 (fun _ => "u") []
    (SSEFrame.final (mkFinalChunk ⟨"m", "chatcmpl-" ++ "t", 3, fun _ => "u"⟩ initialState))
    (by simp [runOpenAI, runOpenAIFrom, emittedFrames, foldState, flushOpenAI])

/-- C10: a malformed `tool_code` event (payload without both `name` and
`args`) emits no frame and leaves the whole session state — including the
tool-call position counter and the buffered tool-call id — unchanged; the
index values across the emitted tool-call frames are `0,1,…,N-1` where `N`
counts only the well-formed `tool_code` events, even with malformed ones
interleaved. -/
theorem claim_C10_malformed_tool_calls (model tok : String) (created : Nat)
    (uuid : Nat → String) (events : List StreamChunk) :
    (∀ (st : TransformerState) (c : StreamChunk), c.type = "tool_code" →
        isGeminiFunctionCall c.data = false → stepOpenAI uuid st c = (st, none))
    ∧ toolCallLists (runOpenAI model tok created uuid events) =
        expectedToolCallLists uuid 0
          ((events.filter isWfToolChunk).map StreamChunk.data) := by
  constructor
  · intro st c hty hguard
    obtain ⟨ty, d⟩ := c
    simp only at hty
    subst hty
    simp only at hguard
    simp [stepOpenAI, hguard, emitDelta, OpenAIDelta.keyCount]
  · simp only [runOpenAI]
    rw [toolCallLists_run]
    simp [initialState]

theorem claim_C10_witness :
    (stepOpenAI (fun n => toString n) initialState
        ⟨"tool_code", .obj [("name", .str "f")]⟩ = (initialState, none))
    ∧ toolCallLists (runOpenAI "m" "t" 3 (fun n => toString n)
        [⟨"tool_code", .obj [("name", .str "f"), ("args", .null)]⟩,
         ⟨"tool_code", .obj [("name", .str "g")]⟩,
         ⟨"tool_code", .obj [("name", .str "h"), ("args", .num 2)]⟩]) =
      expectedToolCallLists (fun n => toString n) 0
        [.obj [("name", .str "f"), ("args", .null)],
         .obj [("name", .str "h"), ("args", .num 2)]] := by
  have h := claim_C10_malformed_tool_calls "m" "t" 3 (fun n => toString n)
    [⟨"tool_code", .obj [("name", .str "f"), ("args", .null)]⟩,
     ⟨"tool_code", .obj [("name", .str "g")]⟩,
     ⟨"tool_code", .obj [("name", .str "h"), ("args", .num 2)]⟩]
  refine ⟨h.1 initialState ⟨"tool_code", .obj [("name", .str "f")]⟩ rfl (by decide), ?_⟩
  rw [h.2]
  rfl

/-- C1: with every `tool_code` event well-formed, the run emits exactly one
frame per such event, each carrying a singleton tool-call list whose index
values are `0,1,…,N-1` in arrival order, each entry of type `"function"`
with the event payload's name, the compact JSON serialization of its args,
and the freshly generated id `call_<uuid>`; with an injective generator
the ids are pairwise distinct. -/
theorem claim_C1_tool_call_frames (model tok : String) (created : Nat)
    (uuid : Nat → String) (events : List StreamChunk)
    (hwf : ∀ e ∈ events, e.type = "tool_code" → isGeminiFunctionCall e.data = true)
    (hinj : Function.Injective uuid) :
    toolCallLists (runOpenAI model tok created uuid events) =
      expectedToolCallLists uuid 0
        ((events.filter (fun e => e.type == "tool_code")).map StreamChunk.data)
    ∧ (toolCallIds (runOpenAI model tok created uuid events)).Nodup := by
  have hfilter : events.filter isWfToolChunk =
      events.filter (fun e => e.type == "tool_code") := by
    apply List.filter_congr
    intro e he
    by_cases h : e.type = "tool_code"
    · simp [isWfToolChunk, h, hwf e he h]
    · simp [isWfToolChunk, h]
  have hlists : toolCallLists (runOpenAI model tok created uuid events) =
      expectedToolCallLists uuid 0
        ((events.filter (fun e => e.type == "tool_code")).map StreamChunk.data) := by
    simp only [runOpenAI]
    rw [toolCallLists_run, hfilter]
    simp [initialState]
  refine ⟨hlists, ?_⟩
  rw [toolCallIds, hlists, expectedToolCallLists_ids]
  apply List.Nodup.map _ (List.nodup_range' 0 _)
  intro a b hab
  exact hinj (string_append_cancel_left hab)

theorem claim_C1_witness :
    toolCallLists (runOpenAI "m" "t" 3 (fun n => String.mk (List.replicate n 'a'))
        [textChunk "x",
         ⟨"tool_code", .obj [("name", .str "f"), ("args", .obj [("k", .num 1)])]⟩,
         ⟨"finish_reason", .str "STOP"⟩,
         ⟨"tool_code", .obj [("name", .str "g"), ("args", .arr [.str "v"])]⟩]) =
      expectedToolCallLists (fun n => String.mk (List.replicate n 'a')) 0
        [.obj [("name", .str "f"), ("args", .obj [("k", .num 1)])],
         .obj [("name", .str "g"), ("args", .arr [.str "v"])]]
    ∧ (toolCallIds (runOpenAI "m" "t" 3 (fun n => String.mk (List.replicate n 'a'))
        [textChunk "x",
         ⟨"tool_code", .obj [("name", .str "f"), ("args", .obj [("k", .num 1)])]⟩,
         ⟨"finish_reason", .str "STOP"⟩,
         ⟨"tool_code", .obj [("name", .str "g"), ("args", .arr [.str "v"])]⟩])).Nodup :=
  claim_C1_tool_call_frames "m" "t" 3 (fun n => String.mk (List.replicate n 'a'))
    [textChunk "x",
     ⟨"tool_code", .obj [("name", .str "f"), ("args", .obj [("k", .num 1)])]⟩,
     ⟨"finish_reason", .str "STOP"⟩,
     ⟨"tool_code", .obj [("name", .str "g"), ("args", .arr [.str "v"])]⟩]
    (by decide)
    (fun a b hab => by simpa using congrArg (fun s => s.data.length) hab)

/-- C2: `finish_reason` events emit no frame; the single terminal frame
carries `"tool_calls"` whenever a well-formed `tool_code` event occurred,
and otherwise the last buffered finish signal mapped through STOP→stop,
MAX_TOKENS→length, SAFETY/RECITATION→content_filter, with `"stop"` for any
other or absent signal. -/
theorem claim_C2_finish_reason (model tok : String) (created : Nat)
    (uuid : Nat → String) (events : List StreamChunk) :
    (∀ (st : TransformerState) (c : StreamChunk), c.type = "finish_reason" →
        (stepOpenAI uuid st c).2 = none)
    ∧ terminalFinishReasons (runOpenAI model tok created uuid events) =
        [if events.any isWfToolChunk then "tool_calls"
         else
           match (events.filterMap wfSignal?).getLast? with
           | some fr => mapFinishReason fr
           | none => "stop"] := by
  refine ⟨fun st c h => stepOpenAI_finish_no_frame uuid st c h, ?_⟩
  simp only [runOpenAI]
  rw [terminalFinishReasons_run, resolveFinishReason_spec]
  have huuid : (⟨model, "chatcmpl-" ++ tok, created, uuid⟩ : OpenAISession).uuid = uuid := rfl
  rw [huuid, jsTruthy_final_toolCallId, foldState_finishReason]
  rcases h : (events.filterMap wfSignal?).getLast? with _ | fr <;>
    simp [latch, initialState]

theorem claim_C2_witness :
    (stepOpenAI (fun _ => "u") initialState ⟨"finish_reason", .str "MAX_TOKENS"⟩).2 = none
    ∧ terminalFinishReasons (runOpenAI "m" "t" 3 (fun _ => "u")
        [⟨"finish_reason", .str "MAX_TOKENS"⟩]) = ["length"] := by
  have h := claim_C2_finish_reason "m" "t" 3 (fun _ => "u")
    [⟨"finish_reason", .str "MAX_TOKENS"⟩]
  refine ⟨h.1 initialState ⟨"finish_reason", .str "MAX_TOKENS"⟩ rfl, ?_⟩
  rw [h.2]
  rfl

/-- C5: `usage` events emit no frame of their own; the terminal frame
carries `{prompt_tokens: p, completion_tokens: c, total_tokens: p + c}`
from the last buffered well-formed usage payload, and no usage object at
all when none was buffered. -/
theorem claim_C5_usage (model tok : String) (created : Nat) (uuid : Nat → String)
    (events : List StreamChunk) :
    (∀ (uuid2 : Nat → String) (st : TransformerState) (c : StreamChunk),
        c.type = "usage" → (stepOpenAI uuid2 st c).2 = none)
    ∧ ((events.filterMap wfUsage?).getLast? = none →
        terminalUsages (runOpenAI model tok created uuid events) = [none])
    ∧ (∀ (u : JVal) (p q : Int), (events.filterMap wfUsage?).getLast? = some u →
        jsGetProp u "inputTokens" = .num p → jsGetProp u "outputTokens" = .num q →
        terminalUsages (runOpenAI model tok created uuid events) =
          [some { prompt_tokens := .num p, completion_tokens := .num q,
                  total_tokens := .num (p + q) }]) := by
  have huuid : (⟨model, "chatcmpl-" ++ tok, created, uuid⟩ : OpenAISession).uuid = uuid := rfl
  refine ⟨fun uuid2 st c h => stepOpenAI_usage_no_frame uuid2 st c h, ?_, ?_⟩
  · intro h
    simp only [runOpenAI]
    rw [terminalUsages_run, huuid, foldState_usageData, h]
    simp [latch, initialState]
  · intro u p q h hp hq
    simp only [runOpenAI]
    rw [terminalUsages_run, huuid, foldState_usageData, h]
    simp [latch, initialState, mkUsage, hp, hq, jsAdd]

theorem claim_C5_witness :
    (stepOpenAI (fun _ => "u") initialState
        ⟨"usage", .obj [("inputTokens", .num 10), ("outputTokens", .num 5)]⟩).2 = none
    ∧ terminalUsages (runOpenAI "m" "t" 3 (fun _ => "u")
        [⟨"usage", .obj [("inputTokens", .num 10), ("outputTokens", .num 5)]⟩]) =
      [some { prompt_tokens := .num 10, completion_tokens := .num 5,
              total_tokens := .num 15 }] := by
  have h := claim_C5_usage "m" "t" 3 (fun _ => "u")
    [⟨"usage", .obj [("inputTokens", .num 10), ("outputTokens", .num 5)]⟩]
  refine ⟨h.1 (fun _ => "u") initialState _ rfl, ?_⟩
  exact h.2.2 (.obj [("inputTokens", .num 10), ("outputTokens", .num 5)]) 10 5 rfl rfl rfl

/-- C3: for a stream of `text` events with payloads `s1, s2, …`, the
content fields of the emitted frames are exactly `s1, s2, …`, so their
concatenation is `s1+s2+…`; the first emitted frame carries
`role: "assistant"`, and the role is set on no other frame. -/
theorem claim_C3_text_concatenation (model tok : String) (created : Nat)
    (uuid : Nat → String) (texts : List String) :
    contentStrings (runOpenAI model tok created uuid (texts.map textChunk)) = texts
    ∧ String.join
        (contentStrings (runOpenAI model tok created uuid (texts.map textChunk))) =
        String.join texts
    ∧ (∀ (s : String) (rest : List String), texts = s :: rest →
        (runOpenAI model tok created uuid (texts.map textChunk)).head? =
          some (SSEFrame.chunk
            (mkOpenAIChunk ⟨model, "chatcmpl-" ++ tok, created, uuid⟩
              { content := some (.str s), role := some "assistant" }))
        ∧ frameRoles (runOpenAI model tok created uuid (texts.map textChunk)) =
            ["assistant"]) := by
  have hctr0 := contentStrings_text_run
    ⟨model, "chatcmpl-" ++ tok, created, uuid⟩ initialState texts
  have hctr : contentStrings
      (runOpenAI model tok created uuid (texts.map textChunk)) = texts := hctr0
  refine ⟨hctr, by rw [hctr0.symm.trans hctr, hctr], ?_⟩
  rintro s rest rfl
  constructor
  · simp only [runOpenAI, runOpenAIFrom, List.map_cons, emittedFrames]
    simp [stepOpenAI, textChunk, emitDelta, OpenAIDelta.keyCount, initialState,
      JVal.asString?]
  · simp only [runOpenAI]
    rw [frameRoles_run]
    simp [initialState, isWfContentChunk, textChunk, JVal.asString?]

theorem claim_C3_witness :
    contentStrings (runOpenAI "m" "t" 3 (fun _ => "u") (["hi", "!"].map textChunk)) =
      ["hi", "!"]
    ∧ frameRoles (runOpenAI "m" "t" 3 (fun _ => "u") (["hi", "!"].map textChunk)) =
      ["assistant"] := by
  have h := claim_C3_text_concatenation "m" "t" 3 (fun _ => "u") ["hi", "!"]
  exact ⟨h.1, (h.2.2 "hi" ["!"] rfl).2⟩

/-- C9: `role: "assistant"` appears in at most one frame per session;
`real_thinking`, `reasoning`, `native_tool` and `grounding_metadata` events
never carry a role and leave the first-content flag untouched; and when
only such events precede every content-bearing event, their frames are
roleless, the flag is still set, and the role attaches to the first later
`text` frame. -/
theorem claim_C9_role_uniqueness (model tok : String) (created : Nat)
    (uuid : Nat → String) (events : List StreamChunk) :
    (frameRoles (runOpenAI model tok created uuid events)).length ≤ 1
    ∧ (∀ (st : TransformerState) (c : StreamChunk),
        (c.type = "real_thinking" ∨ c.type = "reasoning" ∨ c.type = "native_tool"
          ∨ c.type = "grounding_metadata") →
        (stepOpenAI uuid st c).1.firstChunk = st.firstChunk
          ∧ ((stepOpenAI uuid st c).2.bind OpenAIDelta.role) = none)
    ∧ (∀ (pre : List StreamChunk) (s : String),
        (∀ e ∈ pre, e.type ≠ "text" ∧ e.type ≠ "thinking_content"
          ∧ e.type ≠ "tool_code") →
        frameRoles (emittedFrames ⟨model, "chatcmpl-" ++ tok, created, uuid⟩
            initialState pre) = []
        ∧ (foldState uuid initialState pre).firstChunk = true
        ∧ frameRoles (runOpenAI model tok created uuid (pre ++ [textChunk s])) =
            ["assistant"]) := by
  refine ⟨?_, ?_, ?_⟩
  · simp only [runOpenAI]
    rw [frameRoles_run]
    split <;> simp
  · intro st c h
    have hnc : isWfContentChunk c = false := by
      obtain ⟨ty, d⟩ := c
      simp only at h
      rcases h with h | h | h | h <;> subst h <;>
        simp [isWfContentChunk, isWfToolChunk]
    constructor
    · rw [stepOpenAI_fst]
      simp [stepState, hnc]
    · rw [stepOpenAI_snd_role]
      simp [hnc]
  · intro pre s hpre
    have hnone : ∀ e ∈ pre, isWfContentChunk e = false := by
      intro e he
      obtain ⟨h1, h2, h3⟩ := hpre e he
      obtain ⟨ty, d⟩ := e
      simp only at h1 h2 h3
      simp [isWfContentChunk, isWfToolChunk, h1, h2, h3]
    have hany : pre.any isWfContentChunk = false := by
      rw [List.any_eq_false]
      intro e he
      simp [hnone e he]
    refine ⟨?_, ?_, ?_⟩
    · rw [frameRoles_emittedFrames]
      simp [initialState, hany]
    · rw [foldState_firstChunk]
      simp [initialState, hany]
    · simp only [runOpenAI]
      rw [frameRoles_run]
      simp [initialState, List.any_append, hany, isWfContentChunk, textChunk,
        JVal.asString?]

theorem claim_C9_witness :
    ((stepOpenAI (fun _ => "u") initialState
        ⟨"real_thinking", .str "think"⟩).1.firstChunk = initialState.firstChunk
      ∧ ((stepOpenAI (fun _ => "u") initialState
          ⟨"real_thinking", .str "think"⟩).2.bind OpenAIDelta.role) = none)
    ∧ frameRoles (emittedFrames ⟨"m", "chatcmpl-" ++ "t", 3, fun _ => "u"⟩
        initialState [⟨"real_thinking", .str "think"⟩]) = []
    ∧ (foldState (fun _ => "u") initialState
        [⟨"real_thinking", .str "think"⟩]).firstChunk = true
    ∧ frameRoles (runOpenAI "m" "t" 3 (fun _ => "u")
        ([⟨"real_thinking", .str "think"⟩] ++ [textChunk "hi"])) = ["assistant"] := by
  have h := claim_C9_role_uniqueness "m" "t" 3 (fun _ => "u") []
  exact ⟨h.2.1 initialState ⟨"real_thinking", .str "think"⟩ (Or.inl rfl),
    h.2.2 [⟨"real_thinking", .str "think"⟩] "hi" (by decide)⟩

end StreamTransformer
